import Mathlib

/-!
# Verification of `scraper.js`

A shallow embedding of the crawl engine in `src/scraper.js`: the dedup
ledger (`visited` / `all`), the `async.queue` work queue with its `drain`
callback, the `scrapeUrl` page processor with its single `try`/`catch`,
the retry `setTimeout` path, and the finalization (metadata index write
plus tar archive).

Modelling conventions:

* JavaScript is single threaded; the body of `scrapeUrl` is synchronous
  except for the single `await axios.get(...)`.  Each queue task is
  therefore modelled as one atomic state transition (the synchronous
  check-and-insert blocks are atomic in the source as well); the
  `async.queue` `drain` check runs at the end of a task, and `setTimeout`
  callbacks are separate nondeterministically scheduled steps.
  Serial schedules are among those the bounded pool (`MAX_CONCURRENCY`)
  permits, so every trace exhibited below is a real schedule.
* `new URL(...)` resolution is modelled for the standard cases used by
  the crawl (absolute references, scheme-relative `//`, root-relative
  `/`, and directory-relative forms); dot-segment normalization and the
  empty-href corner case are not modelled and are not exercised by any
  statement below.
* The external collaborators (axios, cheerio, turndown, fs, tar) appear
  as a `World`: a fetch oracle, a write-failure oracle, and an archive
  failure flag.  An uncaught exception in the `drain` callback (the
  `metadata.json` write when `./data` was never created) terminates the
  Node process; this is the `crashed` flag, which disables further steps.
-/

namespace Scraper

/-! ## JavaScript string primitives (on `List Char`) -/

/-- JS `a.startsWith(pre)`. -/
def jsStartsWith (s pre : String) : Bool :=
  pre.data.isPrefixOf s.data

/-- JS `a.includes('#')`. -/
def jsContainsHash (s : String) : Bool :=
  s.data.contains '#'

/-- JS `String.prototype.trim()`. -/
def jsTrim (s : String) : String :=
  ⟨((s.data.dropWhile Char.isWhitespace).reverse.dropWhile Char.isWhitespace).reverse⟩

/-- JS `s.replace(pat, rep)`: replace the first occurrence only. -/
def replaceFirstL : List Char → List Char → List Char → List Char
  | [], _, _ => []
  | c :: cs, pat, rep =>
    if pat.isPrefixOf (c :: cs) then rep ++ (c :: cs).drop pat.length
    else c :: replaceFirstL cs pat rep

/-! ## URL model

`new URL(h).href` essentials: scheme detection, origin, pathname, and
reference resolution against a base URL. -/

/-- Splits `scheme "://" rest` at the first `"://"` separator. -/
def splitScheme : List Char → Option (List Char × List Char)
  | [] => none
  | ':' :: '/' :: '/' :: rest => some ([], rest)
  | c :: rest =>
    match splitScheme rest with
    | none => none
    | some (a, b) => some (c :: a, b)

/-- A character ending the host component of a URL. -/
def hostDelim (c : Char) : Bool :=
  c = '/' || c = '?' || c = '#'

/-- The tail of a URL scheme: alphanumeric or `+`/`-`/`.` characters up
to a `':'`. -/
def schemeTail : List Char → Bool
  | [] => false
  | ':' :: _ => true
  | c :: rest => (c.isAlphanum || c = '+' || c = '-' || c = '.') && schemeTail rest

/-- Whether a string carries a URL scheme (so `new URL(s, b)` ignores
the base): a leading letter followed by scheme characters and `':'`. -/
def isAbsoluteUrl (s : String) : Bool :=
  match s.data with
  | [] => false
  | c :: rest => c.isAlpha && schemeTail rest

/-- Model of `new URL(s).origin`: the `scheme://host` part of an absolute URL. -/
def urlOrigin (s : String) : String :=
  match splitScheme s.data with
  | none => s
  | some (sch, rest) =>
    ⟨sch ++ (':' :: '/' :: '/' :: rest.takeWhile (fun c => !hostDelim c))⟩

/-- Model of `new URL(s).protocol` without the colon. -/
def urlScheme (s : String) : String :=
  match splitScheme s.data with
  | none => ""
  | some (sch, _) => ⟨sch⟩

/-- Model of `new URL(s).pathname`: the path component, `"/"` when absent. -/
def urlPathname (s : String) : String :=
  match splitScheme s.data with
  | none => "/"
  | some (_, rest) =>
    let after := rest.dropWhile (fun c => !hostDelim c)
    let path := after.takeWhile (fun c => c ≠ '?' && c ≠ '#')
    if path.head? = some '/' then ⟨path⟩ else "/"

/-- The directory prefix of a path: everything up to and including the
last `'/'`. -/
def upToLastSlash (l : List Char) : List Char :=
  (l.reverse.dropWhile (fun c => c ≠ '/')).reverse

/-- Model of `new URL(v, b).href` for a successfully resolving reference `v`
against an absolute base `b` (RFC 3986 merge, without dot-segment
normalization). -/
def resolveHref (v b : String) : String :=
  if isAbsoluteUrl v then v
  else if jsStartsWith v "//" then urlScheme b ++ ":" ++ v
  else if jsStartsWith v "/" then urlOrigin b ++ v
  else urlOrigin b ++ (⟨upToLastSlash (urlPathname b).data⟩ : String) ++ v

/-! ## Configuration constants (`scraper.js` lines 58-64) -/

/-- Source constant `base = 'https://shopify.dev'`, the base URL for scraping. -/
def base : String := "https://shopify.dev"

/-- Source constant `MAX_CONCURRENCY = 100`, bound of the worker pool. -/
def MAX_CONCURRENCY : Nat := 100

/-- Source constant `MAX_RETRIES = 3`. -/
def MAX_RETRIES : Nat := 3

/-- Source constant `RETRY_DELAY = 1000` (milliseconds; the model is untimed). -/
def RETRY_DELAY : Nat := 1000

/-- Source constant `SCRAPE_TIMEOUT = 30000` (milliseconds; the model is untimed). -/
def SCRAPE_TIMEOUT : Nat := 30000

/-! ## Data model -/

/-- A frontier work item: the objects `{ url, retries }` pushed onto the
`async` queue. -/
structure WorkItem where
  url : String
  retries : Nat
deriving DecidableEq, Repr

/-- One entry of the `metaData` array (`scraper.js` lines 196-200). -/
structure PageRecord where
  url : String
  path : String
  title : String
deriving DecidableEq, Repr

/-- What a successful fetch-and-parse of one page yields: the `href`
values of `$('a[href]')`, whether `$('.article--docs')` matched
(`article.length > 0`), the region's inner HTML and the page title. -/
structure Page where
  links : List String
  hasArticle : Bool
  articleHTML : String
  title : String
deriving DecidableEq, Repr

/-- Result of `await axios.get(url)` combined with the status check:
either a `FetchFailure` (network error, timeout or non-200 status) or a
parsed page. -/
inductive FetchResult where
  | failure
  | success (page : Page)
deriving DecidableEq, Repr

/-- The external collaborators: the transport/parser oracle, the
filesystem write-failure oracle (by derived directory name), and whether
`tar.c` fails. -/
structure World where
  fetch : String → FetchResult
  writeFails : String → Bool
  tarFails : Bool

/-- The process-wide mutable state of `scraper.js`. -/
structure State where
  /-- Source set `visited`, URLs whose processing has started. -/
  visited : List String
  /-- Source set `all`, URLs ever admitted to the queue. -/
  all : List String
  /-- Pending items of `async.queue` (FIFO). -/
  queued : List WorkItem
  /-- Retry re-submissions sitting inside their `setTimeout` delay. -/
  timers : List WorkItem
  /-- Directories existing under `./data`, by derived file name. -/
  fsDirs : List String
  /-- Source array `metaData`. -/
  metaData : List PageRecord
  /-- Source counter `scrapedPagesCount`. -/
  scrapedPagesCount : Nat
  /-- Chronological log of `axios.get` calls actually issued. -/
  fetchLog : List WorkItem
  /-- Number of invocations of the `queue.drain` callback. -/
  drainFires : Nat
  /-- Contents written to `metadata.json`, in order. -/
  indexWrites : List (List PageRecord)
  /-- Number of `tar.c` invocations. -/
  tarAttempts : Nat
  /-- Number of failed `tar.c` invocations (logged and swallowed). -/
  tarErrors : Nat
  /-- An uncaught exception escaped the drain callback: process dead. -/
  crashed : Bool
deriving Repr

/-! ## The page processor (`scrapeUrl`, lines 115-214) -/

/-- Lines 152-153.  `new URL(url).pathname.replace('/', '')
.replaceAll('/', '-').replace('https-', '').replace('www-', '')
.replace(':', '').replace('.', '-')`. -/
def fileNameOf (url : String) : String :=
  let p := (urlPathname url).data
  let s1 := replaceFirstL p ['/'] []
  let s2 := s1.map (fun c => if c = '/' then '-' else c)
  let s3 := replaceFirstL s2 "https-".data []
  let s4 := replaceFirstL s3 "www-".data []
  let s5 := replaceFirstL s4 [':'] []
  let s6 := replaceFirstL s5 ['.'] ['-']
  ⟨s6⟩

/-- Lines 142-147: admit a resolved link to the frontier if it is not in
`all`, starts with the base-URL string, is not in `visited`, and does
not contain `'#'`; then `queue.push` and `all.add`. -/
def admitLink (absUrl : String) (s : State) : State :=
  if absUrl ∉ s.all then
    if jsStartsWith absUrl base ∧ absUrl ∉ s.visited ∧ ¬ jsContainsHash absUrl then
      { s with queued := s.queued ++ [⟨absUrl, 0⟩], all := absUrl :: s.all }
    else s
  else s

/-- Lines 176-179 (the body of the `article.find('a[href], img[src]')`
callback): a nonempty attribute value not starting with `"http"` is
replaced by its resolution against `base`; anything else is kept. -/
def rewriteValue (value : String) : String :=
  if value ≠ "" ∧ ¬ jsStartsWith value "http" then resolveHref value base
  else value

/-- Lines 152-202, the persist part of one iteration of the link loop:
skip when the derived directory already exists (`fs.existsSync`), skip
when `$('.article--docs')` matched nothing; otherwise write the three
files (a filesystem error here throws, `Except.error`), append one
`PageRecord` and increment `scrapedPagesCount`. -/
def persistPhase (w : World) (url : String) (page : Page) (s : State) :
    Except State State :=
  let fileName := fileNameOf url
  if fileName ∈ s.fsDirs then .ok s
  else if page.hasArticle = false then .ok s
  else if w.writeFails fileName then .error s
  else .ok { s with
    fsDirs := fileName :: s.fsDirs,
    metaData := s.metaData ++ [⟨url, fileName, page.title⟩],
    scrapedPagesCount := s.scrapedPagesCount + 1 }

/-- One iteration of `for (const u of urls)` (lines 137-202): resolve
and possibly enqueue the link, then run the persist block — which the
source places *inside* this loop. -/
def linkIter (w : World) (url : String) (page : Page) (u : String)
    (s : State) : Except State State :=
  persistPhase w url page (admitLink (resolveHref u url) s)

/-- The whole `for (const u of urls)` loop; an exception aborts the
remaining iterations. -/
def linkLoop (w : World) (url : String) (page : Page) :
    List String → State → Except State State
  | [], s => .ok s
  | u :: rest, s =>
    match linkIter w url page u s with
    | .error t => .error t
    | .ok t => linkLoop w url page rest t

/-- Lines 120-121 plus the issued `axios.get`: mark the URL visited and
log the fetch attempt. -/
def visitMark (url : String) (retries : Nat) (s : State) : State :=
  { s with
    visited := url :: s.visited,
    fetchLog := s.fetchLog ++ [⟨url, retries⟩] }

/-- The `try` block of `scrapeUrl` after the visited check (lines
123-203): fetch, then run the link loop.  `Except.error` means an
exception reaches the `catch`. -/
def tryResult (w : World) (url : String) (s : State) : Except State State :=
  match w.fetch url with
  | .failure => .error s
  | .success page => linkLoop w url page page.links s

/-- The `catch` block (lines 204-213): below the retry ceiling, schedule
`queue.push({url, retries: retries + 1})` via `setTimeout`; at the
ceiling, log and give up. -/
def catchScrape (url : String) (retries : Nat) (s : State) : State :=
  if retries < MAX_RETRIES then
    { s with timers := s.timers ++ [⟨url, retries + 1⟩] }
  else s

/-- The function `scrapeUrl(url, retries)` (lines 115-214). -/
def scrapeUrl (w : World) (url : String) (retries : Nat) (s : State) :
    State :=
  if url ∈ s.visited then s
  else
    match tryResult w url (visitMark url retries s) with
    | .ok t => t
    | .error t => catchScrape url retries t

/-! ## The queue, drain callback, and step relation -/

/-- The body of `queue.drain` (lines 220-242): write `metadata.json`,
then `tar.c` with a logging `.catch`.  When no page was ever persisted,
`./data` does not exist (it is removed at startup, line 70, and only
`fs.mkdirSync` at line 190 recreates it), so the `writeFileSync` throws
ENOENT; the exception is uncaught and kills the process. -/
def drainCallback (w : World) (s : State) : State :=
  if s.fsDirs = [] then { s with crashed := true }
  else
    { s with
      indexWrites := s.indexWrites ++ [s.metaData],
      tarAttempts := s.tarAttempts + 1,
      tarErrors := s.tarErrors + (if w.tarFails then 1 else 0) }

/-- The `async.queue` library fires `drain` whenever a task returns and the queue is
empty (pending `setTimeout` retries are *not* consulted). -/
def drainCheck (w : World) (s : State) : State :=
  if s.queued = [] then
    drainCallback w { s with drainFires := s.drainFires + 1 }
  else s

/-- One scheduler step of the event loop: either a queued item is
dispatched through `scrapeUrl` and the drain condition is checked at its
completion, or a pending `setTimeout` fires and re-pushes its retry
item.  No step runs in a crashed process. -/
inductive Step (w : World) : State → State → Prop
  | work (s : State) (item : WorkItem) (rest : List WorkItem) :
      s.crashed = false →
      s.queued = item :: rest →
      Step w s (drainCheck w (scrapeUrl w item.url item.retries
        { s with queued := rest }))
  | timer (s : State) (t : WorkItem) (rest : List WorkItem) :
      s.crashed = false →
      s.timers = t :: rest →
      Step w s { s with timers := rest, queued := s.queued ++ [t] }

/-- Lines 76-80 and 217: empty sets and counters, the base URL in `all`
and pushed onto the queue. -/
def initState : State :=
  { visited := [], all := [base], queued := [⟨base, 0⟩], timers := [],
    fsDirs := [], metaData := [], scrapedPagesCount := 0, fetchLog := [],
    drainFires := 0, indexWrites := [], tarAttempts := 0, tarErrors := 0,
    crashed := false }

/-- Reachability from the program's initial state. -/
def Reach (w : World) (s : State) : Prop :=
  Relation.ReflTransGen (Step w) initState s

/-- Number of issued fetch attempts for a URL. -/
def countFetch (u : String) (log : List WorkItem) : Nat :=
  (log.filter (fun it => it.url == u)).length

/-- The spec's `isInScope` (§4.3): origin equality with the site origin
and no fragment component.  Stated from the spec's words, to be compared
with the code's check in `admitLink`. -/
def isInScope (u : String) : Bool :=
  urlOrigin u == base && !jsContainsHash u

/-! ## Auxiliary definitions for the proofs -/

/-- The state carried by either outcome of an exception-throwing block. -/
def exState (e : Except State State) : State :=
  match e with
  | .ok s => s
  | .error s => s

/-- Fields of the state that one iteration of the link loop can never
change, plus the lockstep coupling of `scrapedPagesCount` and
`metaData.length`. -/
def Frame (s t : State) : Prop :=
  t.visited = s.visited ∧ t.fetchLog = s.fetchLog ∧ t.timers = s.timers ∧
  t.drainFires = s.drainFires ∧ t.indexWrites = s.indexWrites ∧
  t.tarAttempts = s.tarAttempts ∧ t.tarErrors = s.tarErrors ∧
  t.crashed = s.crashed ∧
  t.scrapedPagesCount + s.metaData.length
    = s.scrapedPagesCount + t.metaData.length

/-- Dedup invariant: every URL is fetched at most once, and a URL
outside `visited` was never fetched. -/
def Inv6 (s : State) : Prop :=
  ∀ u, countFetch u s.fetchLog ≤ 1 ∧
    (u ∉ s.visited → countFetch u s.fetchLog = 0)

/-! ## Concrete crawl worlds and traces

Worlds used in the closed run theorems; each trace below is a real
schedule of the program (see the modelling notes at the top). -/

/-- The in-scope link of the `w2` world. -/
def urlB : String := "https://shopify.dev/b"

/-- A root page carrying an article region and one in-scope link. -/
def pageRoot : Page :=
  { links := ["/b"], hasArticle := true, articleHTML := "<p>x</p>",
    title := "Root" }

/-- World for the retry/drain traces: the root page succeeds, every
other URL (in particular `urlB`) always fails to fetch. -/
def w2 : World :=
  { fetch := fun url => if url == base then .success pageRoot else .failure,
    writeFails := fun _ => false, tarFails := false }

/-- State after dispatching the root item in `w2`. -/
def sA : State :=
  drainCheck w2 (scrapeUrl w2 base 0 { initState with queued := [] })

/-- State after dispatching `urlB` in `w2` (fetch fails, retry timer
scheduled, first drain fires). -/
def sB : State :=
  drainCheck w2 (scrapeUrl w2 urlB 0 { sA with queued := [] })

/-- State after the retry `setTimeout` fires in `w2`. -/
def sC : State :=
  { sB with timers := [], queued := sB.queued ++ [⟨urlB, 1⟩] }

/-- State after the retry item is dispatched in `w2` (no-op at the
visited check, second drain fires). -/
def sD : State :=
  drainCheck w2 (scrapeUrl w2 urlB 1 { sC with queued := [] })

/-- A root page with an article region and no hyperlinks at all. -/
def pageNoLinks : Page :=
  { links := [], hasArticle := true, articleHTML := "<p>x</p>",
    title := "Root" }

/-- World in which the root page is an article with zero links. -/
def w3 : World :=
  { fetch := fun url => if url == base then .success pageNoLinks else .failure,
    writeFails := fun _ => false, tarFails := false }

/-- State after dispatching the root item in `w3`. -/
def s3 : State :=
  drainCheck w3 (scrapeUrl w3 base 0 { initState with queued := [] })

/-- A URL whose origin differs from the site origin but whose string
merely extends the site-origin string. -/
def evilUrl : String := "https://shopify.dev.evil.com/x"

/-- A root page linking to `evilUrl`. -/
def pageEvil : Page :=
  { links := [evilUrl], hasArticle := true, articleHTML := "<p>x</p>",
    title := "Root" }

/-- World in which the root page links to a prefix-matching foreign
origin. -/
def w4 : World :=
  { fetch := fun url => if url == base then .success pageEvil else .failure,
    writeFails := fun _ => false, tarFails := false }

/-- State after dispatching the root item in `w4`. -/
def sC4 : State :=
  drainCheck w4 (scrapeUrl w4 base 0 { initState with queued := [] })

/-- World in which every fetch fails (zero pages ever persisted). -/
def w5 : World :=
  { fetch := fun _ => .failure, writeFails := fun _ => false,
    tarFails := false }

/-- State after dispatching the root item in `w5`: the drain callback
runs with `./data` missing. -/
def s5 : State :=
  drainCheck w5 (scrapeUrl w5 base 0 { initState with queued := [] })

/-- World in which the root fetch succeeds but writing the root page's
output directory (derived name `""`) fails. -/
def wc7 : World :=
  { fetch := fun url => if url == base then .success pageRoot else .failure,
    writeFails := fun fn => fn == "", tarFails := false }

/-- State after dispatching the root item in `wc7`: the persist-phase
exception lands in the retry path. -/
def sC7 : State :=
  drainCheck wc7 (scrapeUrl wc7 base 0 { initState with queued := [] })

/-- A root page whose content region is present but empty after
trimming. -/
def page8 : Page :=
  { links := ["/b"], hasArticle := true, articleHTML := "  \n ",
    title := "Empty" }

/-- World in which the root article region is present but blank. -/
def w8 : World :=
  { fetch := fun url => if url == base then .success page8 else .failure,
    writeFails := fun _ => false, tarFails := false }

/-- State after dispatching the root item in `w8`. -/
def s8 : State :=
  drainCheck w8 (scrapeUrl w8 base 0 { initState with queued := [] })

/-- A root page whose content-region selector matches nothing. -/
def page8b : Page :=
  { links := ["/b"], hasArticle := false, articleHTML := "",
    title := "Shell" }

/-- World in which the root page has no content region. -/
def w8b : World :=
  { fetch := fun url => if url == base then .success page8b else .failure,
    writeFails := fun _ => false, tarFails := false }

/-! ## Frame lemmas -/

lemma frame_rfl (s : State) : Frame s s := by
  unfold Frame
  exact ⟨rfl, rfl, rfl, rfl, rfl, rfl, rfl, rfl, rfl⟩

lemma frame_trans {a b c : State} (h1 : Frame a b) (h2 : Frame b c) :
    Frame a c := by
  obtain ⟨v1, f1, t1, d1, i1, ta1, te1, c1, n1⟩ := h1
  obtain ⟨v2, f2, t2, d2, i2, ta2, te2, c2, n2⟩ := h2
  exact ⟨v2.trans v1, f2.trans f1, t2.trans t1, d2.trans d1, i2.trans i1,
    ta2.trans ta1, te2.trans te1, c2.trans c1, by omega⟩

lemma admitLink_frame (a : String) (s : State) : Frame s (admitLink a s) := by
  unfold admitLink
  split_ifs <;> exact ⟨rfl, rfl, rfl, rfl, rfl, rfl, rfl, rfl, rfl⟩

lemma admitLink_unchanged (a : String) (s : State) :
    (admitLink a s).metaData = s.metaData ∧
    (admitLink a s).scrapedPagesCount = s.scrapedPagesCount ∧
    (admitLink a s).fsDirs = s.fsDirs ∧
    (admitLink a s).timers = s.timers := by
  unfold admitLink
  split_ifs <;> exact ⟨rfl, rfl, rfl, rfl⟩

lemma persistPhase_frame (w : World) (url : String) (page : Page)
    (s : State) : Frame s (exState (persistPhase w url page s)) := by
  unfold persistPhase
  by_cases h1 : fileNameOf url ∈ s.fsDirs
  · rw [if_pos h1]
    exact frame_rfl s
  · rw [if_neg h1]
    by_cases h2 : page.hasArticle = false
    · rw [if_pos h2]
      exact frame_rfl s
    · rw [if_neg h2]
      by_cases h3 : w.writeFails (fileNameOf url) = true
      · rw [if_pos h3]
        exact frame_rfl s
      · rw [if_neg h3]
        exact ⟨rfl, rfl, rfl, rfl, rfl, rfl, rfl, rfl,
          by simp only [exState, List.length_append, List.length_cons,
            List.length_nil]; omega⟩

lemma persistPhase_noArticle (w : World) (url : String) (page : Page)
    (s : State) (h : page.hasArticle = false) :
    persistPhase w url page s = .ok s := by
  unfold persistPhase
  simp [h, ite_self]

lemma linkIter_frame (w : World) (url : String) (page : Page) (u : String)
    (s : State) : Frame s (exState (linkIter w url page u s)) :=
  frame_trans (admitLink_frame (resolveHref u url) s)
    (persistPhase_frame w url page (admitLink (resolveHref u url) s))

lemma linkLoop_frame (w : World) (url : String) (page : Page) :
    ∀ (L : List String) (s : State),
      Frame s (exState (linkLoop w url page L s)) := by
  intro L
  induction L with
  | nil =>
    intro s
    exact frame_rfl s
  | cons u rest ih =>
    intro s
    have h1 := linkIter_frame w url page u s
    cases h : linkIter w url page u s with
    | error t =>
      rw [h] at h1
      simpa [linkLoop, h, exState] using h1
    | ok t =>
      rw [h] at h1
      simp only [exState] at h1
      have h2 := ih t
      have : linkLoop w url page (u :: rest) s = linkLoop w url page rest t := by
        simp [linkLoop, h]
      rw [this]
      exact frame_trans h1 h2

lemma tryResult_frame (w : World) (url : String) (s : State) :
    Frame s (exState (tryResult w url s)) := by
  unfold tryResult
  cases hf : w.fetch url with
  | failure => exact frame_rfl s
  | success page => exact linkLoop_frame w url page page.links s

lemma catchScrape_unchanged (url : String) (retries : Nat) (s : State) :
    (catchScrape url retries s).visited = s.visited ∧
    (catchScrape url retries s).fetchLog = s.fetchLog ∧
    (catchScrape url retries s).metaData = s.metaData ∧
    (catchScrape url retries s).scrapedPagesCount = s.scrapedPagesCount ∧
    (catchScrape url retries s).fsDirs = s.fsDirs ∧
    (catchScrape url retries s).drainFires = s.drainFires ∧
    (catchScrape url retries s).indexWrites = s.indexWrites ∧
    (catchScrape url retries s).tarAttempts = s.tarAttempts ∧
    (catchScrape url retries s).tarErrors = s.tarErrors ∧
    (catchScrape url retries s).crashed = s.crashed := by
  unfold catchScrape
  split_ifs <;> exact ⟨rfl, rfl, rfl, rfl, rfl, rfl, rfl, rfl, rfl, rfl⟩

lemma scrapeUrl_visited_mem (w : World) (url : String) (retries : Nat)
    (s : State) (h : url ∈ s.visited) : scrapeUrl w url retries s = s := by
  unfold scrapeUrl
  rw [if_pos h]

lemma scrapeUrl_not_visited (w : World) (url : String) (retries : Nat)
    (s : State) (h : url ∉ s.visited) :
    (scrapeUrl w url retries s).visited = url :: s.visited ∧
    (scrapeUrl w url retries s).fetchLog = s.fetchLog ++ [⟨url, retries⟩] := by
  unfold scrapeUrl
  rw [if_neg h]
  have hf := tryResult_frame w url (visitMark url retries s)
  cases ht : tryResult w url (visitMark url retries s) with
  | ok t =>
    rw [ht] at hf
    simp only [exState] at hf
    exact ⟨hf.1, hf.2.1⟩
  | error t =>
    rw [ht] at hf
    simp only [exState] at hf
    have hc := catchScrape_unchanged url retries t
    exact ⟨hc.1.trans hf.1, hc.2.1.trans hf.2.1⟩

lemma scrapeUrl_frame (w : World) (url : String) (retries : Nat)
    (s : State) :
    (scrapeUrl w url retries s).drainFires = s.drainFires ∧
    (scrapeUrl w url retries s).indexWrites = s.indexWrites ∧
    (scrapeUrl w url retries s).tarAttempts = s.tarAttempts ∧
    (scrapeUrl w url retries s).tarErrors = s.tarErrors ∧
    (scrapeUrl w url retries s).crashed = s.crashed ∧
    (scrapeUrl w url retries s).scrapedPagesCount + s.metaData.length
      = s.scrapedPagesCount + (scrapeUrl w url retries s).metaData.length := by
  unfold scrapeUrl
  split_ifs with h
  · exact ⟨rfl, rfl, rfl, rfl, rfl, rfl⟩
  · have hf := tryResult_frame w url (visitMark url retries s)
    cases ht : tryResult w url (visitMark url retries s) with
    | ok t =>
      rw [ht] at hf
      simp only [exState] at hf
      obtain ⟨_, _, _, d1, i1, ta1, te1, c1, n1⟩ := hf
      exact ⟨d1, i1, ta1, te1, c1, n1⟩
    | error t =>
      rw [ht] at hf
      simp only [exState] at hf
      obtain ⟨_, _, _, d1, i1, ta1, te1, c1, n1⟩ := hf
      have hc := catchScrape_unchanged url retries t
      refine ⟨hc.2.2.2.2.2.1.trans d1, hc.2.2.2.2.2.2.1.trans i1,
        hc.2.2.2.2.2.2.2.1.trans ta1, hc.2.2.2.2.2.2.2.2.1.trans te1,
        hc.2.2.2.2.2.2.2.2.2.trans c1, ?_⟩
      rw [hc.2.2.1, hc.2.2.2.1]
      exact n1

lemma drainCheck_unchanged (w : World) (s : State) :
    (drainCheck w s).visited = s.visited ∧
    (drainCheck w s).fetchLog = s.fetchLog ∧
    (drainCheck w s).queued = s.queued ∧
    (drainCheck w s).timers = s.timers ∧
    (drainCheck w s).metaData = s.metaData ∧
    (drainCheck w s).scrapedPagesCount = s.scrapedPagesCount ∧
    (drainCheck w s).fsDirs = s.fsDirs := by
  unfold drainCheck drainCallback
  split_ifs <;> exact ⟨rfl, rfl, rfl, rfl, rfl, rfl, rfl⟩

/-! ## Steps of the concrete traces -/

lemma stepW2_1 : Step w2 initState sA :=
  Step.work initState ⟨base, 0⟩ [] rfl rfl

lemma stepW2_2 : Step w2 sA sB :=
  Step.work sA ⟨urlB, 0⟩ [] (by decide) (by decide)

lemma stepW2_3 : Step w2 sB sC :=
  Step.timer sB ⟨urlB, 1⟩ [] (by decide) (by decide)

lemma stepW2_4 : Step w2 sC sD :=
  Step.work sC ⟨urlB, 1⟩ [] (by decide) (by decide)

lemma reachW2_B : Relation.ReflTransGen (Step w2) initState sB :=
  (Relation.ReflTransGen.single stepW2_1).tail stepW2_2

lemma reachW2_BD : Relation.ReflTransGen (Step w2) sB sD :=
  (Relation.ReflTransGen.single stepW2_3).tail stepW2_4

lemma reachW2_D : Relation.ReflTransGen (Step w2) initState sD :=
  reachW2_B.trans reachW2_BD

/-! ## Fetch-count bookkeeping -/

lemma countFetch_append (u : String) (log : List WorkItem) (it : WorkItem) :
    countFetch u (log ++ [it])
      = countFetch u log + (if it.url = u then 1 else 0) := by
  unfold countFetch
  rw [List.filter_append, List.length_append]
  by_cases h : it.url = u
  · simp [h]
  · have hb : (it.url == u) = false := beq_eq_false_iff_ne.mpr h
    simp [List.filter, hb, h]

lemma countFetch_nil (u : String) : countFetch u [] = 0 := rfl

/-! ## The dedup invariant (for C6) -/

lemma inv6_init : Inv6 initState := by
  intro u
  exact ⟨by simp [countFetch, initState], fun _ => rfl⟩

lemma inv6_scrape (w : World) (url : String) (retries : Nat) (s : State)
    (h6 : Inv6 s) : Inv6 (scrapeUrl w url retries s) := by
  by_cases hv : url ∈ s.visited
  · rw [scrapeUrl_visited_mem w url retries s hv]
    exact h6
  · obtain ⟨hvis, hlog⟩ := scrapeUrl_not_visited w url retries s hv
    intro u
    rw [hvis, hlog, countFetch_append]
    by_cases he : url = u
    · subst he
      have h0 : countFetch url s.fetchLog = 0 := (h6 url).2 hv
      constructor
      · simp [h0]
      · intro hu
        exact absurd (List.mem_cons_self url s.visited) hu
    · rw [if_neg he, Nat.add_zero]
      constructor
      · exact (h6 u).1
      · intro hu
        refine (h6 u).2 (fun hmem => hu ?_)
        exact List.mem_cons_of_mem url hmem

lemma inv6_drain (w : World) (s : State) (h6 : Inv6 s) :
    Inv6 (drainCheck w s) := by
  intro u
  have hd := drainCheck_unchanged w s
  rw [hd.1, hd.2.1]
  exact h6 u

lemma inv6_step {w : World} {s s' : State} (h6 : Inv6 s)
    (hs : Step w s s') : Inv6 s' := by
  cases hs with
  | work item rest hcr hq =>
    exact inv6_drain w _ (inv6_scrape w item.url item.retries
      { s with queued := rest } h6)
  | timer t rest hcr ht =>
    exact h6

lemma inv6_reach {w : World} {s : State} (h : Reach w s) : Inv6 s := by
  unfold Reach at h
  induction h with
  | refl => exact inv6_init
  | tail h1 h2 ih => exact inv6_step ih h2

/-! ## The counter invariant (for C10) -/

lemma inv10_step {w : World} {s s' : State}
    (h10 : s.scrapedPagesCount = s.metaData.length) (hs : Step w s s') :
    s'.scrapedPagesCount = s'.metaData.length := by
  cases hs with
  | work item rest hcr hq =>
    have hf := scrapeUrl_frame w item.url item.retries { s with queued := rest }
    have hd := drainCheck_unchanged w
      (scrapeUrl w item.url item.retries { s with queued := rest })
    rw [hd.2.2.2.2.2.1, hd.2.2.2.2.1]
    have := hf.2.2.2.2.2
    simp only at this
    omega
  | timer t rest hcr ht =>
    exact h10

lemma inv10_reach {w : World} {s : State} (h : Reach w s) :
    s.scrapedPagesCount = s.metaData.length := by
  unfold Reach at h
  induction h with
  | refl => rfl
  | tail h1 h2 ih => exact inv10_step ih h2

/-! ## Auxiliary lemmas for C2, C7, C8, C9 -/

lemma drainCallback_unchanged (w : World) (s : State) :
    (drainCallback w s).drainFires = s.drainFires ∧
    (drainCallback w s).queued = s.queued := by
  unfold drainCallback
  split_ifs <;> exact ⟨rfl, rfl⟩

lemma linkLoop_noArticle (w : World) (url : String) (page : Page)
    (h : page.hasArticle = false) :
    ∀ (L : List String) (s : State), ∃ t, linkLoop w url page L s = .ok t ∧
      t.metaData = s.metaData ∧ t.scrapedPagesCount = s.scrapedPagesCount ∧
      t.fsDirs = s.fsDirs ∧ t.timers = s.timers := by
  intro L
  induction L with
  | nil =>
    intro s
    exact ⟨s, rfl, rfl, rfl, rfl, rfl⟩
  | cons u rest ih =>
    intro s
    have hpp := persistPhase_noArticle w url page
      (admitLink (resolveHref u url) s) h
    obtain ⟨t, ht, hm, hc, hfs, hti⟩ := ih (admitLink (resolveHref u url) s)
    have hal := admitLink_unchanged (resolveHref u url) s
    have hit : linkIter w url page u s = .ok (admitLink (resolveHref u url) s) :=
      hpp
    refine ⟨t, ?_, ?_, ?_, ?_, ?_⟩
    · simp [linkLoop, hit, ht]
    · rw [hm, hal.1]
    · rw [hc, hal.2.1]
    · rw [hfs, hal.2.2.1]
    · rw [hti, hal.2.2.2]

lemma isAbsoluteUrl_scheme_rel (v : String) :
    isAbsoluteUrl (urlScheme base ++ ":" ++ v) = true := by
  cases v with
  | mk d => rfl

lemma isAbsoluteUrl_root_rel (v : String) :
    isAbsoluteUrl (urlOrigin base ++ v) = true := by
  cases v with
  | mk d => rfl

lemma isAbsoluteUrl_dir_rel (v : String) :
    isAbsoluteUrl (urlOrigin base
      ++ (⟨upToLastSlash (urlPathname base).data⟩ : String) ++ v) = true := by
  cases v with
  | mk d => rfl

/-! ## Claim theorems -/

/-- C1: the claim says a URL whose fetch always fails is fetched exactly
`MAX_RETRIES + 1 = 4` times and then produces no `PageRecord`.  On the
code, `visited.add(url)` at line 121 precedes the fetch and is never
undone, so the single retry re-submission returns at the line-118
visited check without fetching: in the maximal `w2` run (queue and
timers both empty at `sD`) the always-failing `urlB` is fetched exactly
once, not four times; it does produce no `PageRecord`. -/
theorem c1_retry_ceiling_trace :
    Relation.ReflTransGen (Step w2) initState sD ∧
    sD.queued = [] ∧ sD.timers = [] ∧
    countFetch urlB sD.fetchLog = 1 ∧
    (countFetch urlB sD.fetchLog == MAX_RETRIES + 1) = false ∧
    sD.metaData = [⟨base, "", "Root"⟩] :=
  ⟨reachW2_D, by decide, by decide, by decide, by decide, by decide⟩

/-- C2 counterexample: the drain callback is claimed to fire exactly
once and never while a retry waits out its delay.  In the `w2` run it
fires at `sB` while the retry timer for `urlB` is still pending, and
fires a second time at `sD`. -/
theorem c2_drain_counterexample :
    Relation.ReflTransGen (Step w2) initState sB ∧
    sB.drainFires = 1 ∧ sB.timers = [⟨urlB, 1⟩] ∧
    Relation.ReflTransGen (Step w2) sB sD ∧
    sD.drainFires = 2 :=
  ⟨reachW2_B, by decide, by decide, reachW2_BD, by decide⟩

/-- C2 amended: each firing of the drain callback does happen at a
moment when the queue is empty and no task is executing (a step changes
`drainFires` only by firing drain at an empty queue), but pending retry
timers are not consulted and the callback can fire several times per
run. -/
theorem c2_drain_amended (w : World) (s s' : State) (h : Step w s s') :
    s'.drainFires = s.drainFires ∨
    (s'.drainFires = s.drainFires + 1 ∧ s'.queued = []) := by
  cases h with
  | work item rest hcr hq =>
    have hf := scrapeUrl_frame w item.url item.retries { s with queued := rest }
    set t := scrapeUrl w item.url item.retries { s with queued := rest } with hT
    unfold drainCheck
    by_cases hqe : t.queued = []
    · rw [if_pos hqe]
      right
      have hdc := drainCallback_unchanged w { t with drainFires := t.drainFires + 1 }
      rw [hdc.1, hdc.2]
      exact ⟨by rw [hf.1], hqe⟩
    · rw [if_neg hqe]
      left
      exact hf.1
  | timer t rest hcr ht =>
    left
    rfl

/-- C3: the claim says a successfully fetched page whose content region
matches is persisted exactly once even with zero hyperlinks.  The
persist block sits inside the per-link `for` loop (lines 137-202), so
the zero-link article page of `w3` is fetched successfully, matches the
selector, yet yields no output directory, no `PageRecord`, and no
counter increment. -/
theorem c3_zero_links_trace :
    Step w3 initState s3 ∧
    w3.fetch base = .success pageNoLinks ∧
    pageNoLinks.hasArticle = true ∧
    pageNoLinks.links = [] ∧
    s3.metaData = [] ∧
    s3.scrapedPagesCount = 0 ∧
    s3.fsDirs = [] :=
  ⟨Step.work initState ⟨base, 0⟩ [] rfl rfl, by decide, rfl, rfl,
    by decide, by decide, by decide⟩

/-- C4 counterexample: a link whose resolved origin differs from the
site origin but whose string extends the site-origin string
(`https://shopify.dev.evil.com/x`) is admitted to the frontier by the
line-143 `startsWith` check, refuting the claimed origin-equality
filter. -/
theorem c4_scope_counterexample :
    Step w4 initState sC4 ∧
    sC4.queued = [⟨evilUrl, 0⟩] ∧
    isInScope evilUrl = false ∧
    jsContainsHash evilUrl = false ∧
    urlOrigin evilUrl = "https://shopify.dev.evil.com" :=
  ⟨Step.work initState ⟨base, 0⟩ [] rfl rfl, by decide, by decide,
    by decide, by decide⟩

/-- C4 amended: a resolved link is admitted to the frontier iff it is
not already in `all`, its string starts with the literal
`'https://shopify.dev'` (a prefix check, not origin equality), it is not
already visited, and it contains no `'#'`. -/
theorem c4_scope_amended (a : String) (s : State) :
    (admitLink a s).queued = s.queued ++ [⟨a, 0⟩] ↔
      (a ∉ s.all ∧ jsStartsWith a base = true ∧ a ∉ s.visited ∧
        jsContainsHash a = false) := by
  unfold admitLink
  by_cases h1 : a ∉ s.all
  · rw [if_pos h1]
    by_cases h2 : jsStartsWith a base ∧ a ∉ s.visited ∧ ¬ jsContainsHash a
    · rw [if_pos h2]
      constructor
      · intro _
        exact ⟨h1, h2.1, h2.2.1, by simpa using h2.2.2⟩
      · intro _
        rfl
    · rw [if_neg h2]
      constructor
      · intro hq
        have hlen := congrArg List.length hq
        simp at hlen
      · rintro ⟨-, hb, hv, hh⟩
        exact absurd ⟨hb, hv, by simp [hh]⟩ h2
  · rw [if_neg h1]
    constructor
    · intro hq
      have hlen := congrArg List.length hq
      simp at hlen
    · rintro ⟨ha, -, -, -⟩
      exact absurd ha h1

/-- C5: the claim says the metadata index is written at idle regardless
of how many pages were persisted, including zero.  When zero pages were
persisted, `./data` does not exist, so the line-223 `writeFileSync`
throws before writing anything: in the all-fetches-fail world `w5` the
drain callback runs once, writes no index, and the process dies. -/
theorem c5_zero_pages_trace :
    Step w5 initState s5 ∧
    s5.drainFires = 1 ∧
    s5.indexWrites = [] ∧
    s5.crashed = true ∧
    s5.metaData = [] ∧
    s5.tarAttempts = 0 :=
  ⟨Step.work initState ⟨base, 0⟩ [] rfl rfl, by decide, by decide,
    by decide, by decide, by decide⟩

/-- C6: in every reachable state of every world, each URL has been
fetched at most once — the synchronous `seen`/`visited` check-and-insert
pairs prevent a second processing attempt from ever reaching the fetch. -/
theorem c6_dedup (w : World) (s : State) (h : Reach w s) (u : String) :
    countFetch u s.fetchLog ≤ 1 :=
  (inv6_reach h u).1

/-- C6 witness: the dedup bound evaluated on the concrete reachable
state `sA`. -/
theorem c6_dedup_witness : countFetch base sA.fetchLog ≤ 1 :=
  c6_dedup w2 sA (Relation.ReflTransGen.single stepW2_1) base

/-- C7 counterexample: in `wc7` the root page fetches and parses
successfully, but writing its output directory fails; the single
line-204 `catch` hands that persist-phase failure to the retry
scheduler (`timers` gains the re-submission), refuting the claim that
persist failures are never retried. -/
theorem c7_persist_failure_retried :
    Step wc7 initState sC7 ∧
    wc7.fetch base = .success pageRoot ∧
    wc7.writeFails (fileNameOf base) = true ∧
    sC7.timers = [⟨base, 1⟩] ∧
    sC7.metaData = [] :=
  ⟨Step.work initState ⟨base, 0⟩ [] rfl rfl, by decide, by decide,
    by decide, by decide⟩

/-- C7 amended: every exception escaping the `try` block — fetch, parse
or persist-phase alike — is handled by the same `catch` and, below the
retry ceiling, handed to the retry scheduler; the code does not
distinguish failure classes. -/
theorem c7_uniform_catch (w : World) (url : String) (retries : Nat)
    (s : State) (h1 : url ∉ s.visited) (h2 : retries < MAX_RETRIES)
    (h3 : (tryResult w url (visitMark url retries s)).isOk = false) :
    (scrapeUrl w url retries s).timers = s.timers ++ [⟨url, retries + 1⟩] := by
  unfold scrapeUrl
  rw [if_neg h1]
  have hf := tryResult_frame w url (visitMark url retries s)
  cases ht : tryResult w url (visitMark url retries s) with
  | ok t =>
    rw [ht] at h3
    simp [Except.isOk, Except.toBool] at h3
  | error t =>
    rw [ht] at hf
    simp only [exState] at hf
    show (catchScrape url retries t).timers = s.timers ++ [⟨url, retries + 1⟩]
    unfold catchScrape
    rw [if_pos h2]
    show t.timers ++ [⟨url, retries + 1⟩] = s.timers ++ [⟨url, retries + 1⟩]
    rw [hf.2.2.1]
    rfl

/-- C7 witness: the uniform catch applied to the concrete write-failure
world `wc7`. -/
theorem c7_uniform_catch_witness :
    (scrapeUrl wc7 base 0 initState).timers
      = initState.timers ++ [⟨base, 1⟩] :=
  c7_uniform_catch wc7 base 0 initState (by decide) (by decide) (by decide)

/-- C8 counterexample: the claim says a present-but-blank content
region is skipped without persisting.  The code only checks
`article.length === 0`; in `w8` the region is present but empty after
trimming, and the page is persisted with a `PageRecord` all the same. -/
theorem c8_empty_region_persisted :
    Step w8 initState s8 ∧
    w8.fetch base = .success page8 ∧
    page8.hasArticle = true ∧
    jsTrim page8.articleHTML = "" ∧
    s8.metaData = [⟨base, "", "Empty"⟩] ∧
    s8.scrapedPagesCount = 1 :=
  ⟨Step.work initState ⟨base, 0⟩ [] rfl rfl, by decide, rfl, by decide,
    by decide, by decide⟩

/-- C8 amended: when the content-region selector matches nothing
(`article.length === 0`), processing of a successfully fetched page
stops without persisting output, without appending a `PageRecord`, and
without scheduling a retry. -/
theorem c8_no_article_skips (w : World) (url : String) (retries : Nat)
    (s : State) (page : Page) (h1 : url ∉ s.visited)
    (h2 : w.fetch url = .success page) (h3 : page.hasArticle = false) :
    (scrapeUrl w url retries s).metaData = s.metaData ∧
    (scrapeUrl w url retries s).scrapedPagesCount = s.scrapedPagesCount ∧
    (scrapeUrl w url retries s).fsDirs = s.fsDirs ∧
    (scrapeUrl w url retries s).timers = s.timers := by
  obtain ⟨t, ht, hm, hc, hfs, hti⟩ :=
    linkLoop_noArticle w url page h3 page.links (visitMark url retries s)
  have htry : tryResult w url (visitMark url retries s) = .ok t := by
    unfold tryResult
    rw [h2]
    exact ht
  unfold scrapeUrl
  rw [if_neg h1, htry]
  exact ⟨hm, hc, hfs, hti⟩

/-- C8 witness: the no-content skip evaluated on the concrete world
`w8b` whose root page has no content region. -/
theorem c8_no_article_skips_witness :
    (scrapeUrl w8b base 0 initState).metaData = initState.metaData ∧
    (scrapeUrl w8b base 0 initState).scrapedPagesCount
      = initState.scrapedPagesCount ∧
    (scrapeUrl w8b base 0 initState).fsDirs = initState.fsDirs ∧
    (scrapeUrl w8b base 0 initState).timers = initState.timers :=
  c8_no_article_skips w8b base 0 initState page8b (by decide) (by decide) rfl

/-- C9 counterexample: the claim says every relative `href`/`src` is
rewritten to an absolute URL.  The code's test is
`!value.startsWith('http')`, so the relative reference `httpdocs/x` is
left unchanged even though its resolution against the site root
differs. -/
theorem c9_http_prefix_counterexample :
    isAbsoluteUrl "httpdocs/x" = false ∧
    rewriteValue "httpdocs/x" = "httpdocs/x" ∧
    resolveHref "httpdocs/x" base = "https://shopify.dev/httpdocs/x" ∧
    (rewriteValue "httpdocs/x" == resolveHref "httpdocs/x" base) = false :=
  ⟨by decide, by decide, by decide, by decide⟩

/-- C9 amended: an attribute value starting with the literal `"http"`
(or empty) is left unchanged; any other value — relative or absolute —
is replaced by its resolution against the site root, which is always an
absolute URL. -/
theorem c9_rewrite_amended (v : String) :
    (jsStartsWith v "http" = true → rewriteValue v = v) ∧
    (v ≠ "" → jsStartsWith v "http" = false →
      rewriteValue v = resolveHref v base ∧
      isAbsoluteUrl (resolveHref v base) = true) := by
  constructor
  · intro h
    simp [rewriteValue, h]
  · intro hne hsw
    constructor
    · simp [rewriteValue, hne, hsw]
    · unfold resolveHref
      split_ifs with ha hss hrs
      · exact ha
      · exact isAbsoluteUrl_scheme_rel v
      · exact isAbsoluteUrl_root_rel v
      · exact isAbsoluteUrl_dir_rel v

/-- C9 witness: the rewrite equation evaluated at the concrete relative
reference `/news`. -/
theorem c9_rewrite_amended_witness :
    rewriteValue "/news" = resolveHref "/news" base ∧
    isAbsoluteUrl (resolveHref "/news" base) = true :=
  (c9_rewrite_amended "/news").2 (by decide) (by decide)

/-- C2 witness: the amended drain behaviour evaluated at the first step
of the `w2` trace. -/
theorem c2_drain_amended_witness :
    sA.drainFires = initState.drainFires ∨
    (sA.drainFires = initState.drainFires + 1 ∧ sA.queued = []) :=
  c2_drain_amended w2 initState sA stepW2_1

/-- C10: in every reachable state the success counter equals the number
of `PageRecord` entries — the two are updated together at lines 196-201
and nowhere else, so each `metadata.json` write (a snapshot of
`metaData`) has exactly `scrapedPagesCount` entries. -/
theorem c10_counter_invariant (w : World) (s : State) (h : Reach w s) :
    s.scrapedPagesCount = s.metaData.length :=
  inv10_reach h

/-- C10 witness: the counter invariant evaluated on the concrete
reachable state `sA`. -/
theorem c10_counter_invariant_witness :
    sA.scrapedPagesCount = sA.metaData.length :=
  c10_counter_invariant w2 sA (Relation.ReflTransGen.single stepW2_1)

end Scraper
